import Mathlib

/-!
Shallow embedding of `nu_plugin_git_prompt` (src/main.rs).

The program is a nushell prompt plugin with two parts:
* `GitStatus::init` (collection): opens a repository, resolves the branch /
  tag / remote identity, counts status entries into sixteen `u16` counters.
* `GitPrompt::run` (rendering): guard checks, then assembles the category
  strings into one line.

External collaborators (libgit2 via the `git2` crate, the `git` subprocess,
the filesystem walk) are modelled as oracle records holding the outcome each
call would return; every branch of the Rust code that inspects such an
outcome is translated faithfully.
-/

namespace GitPromptModel

/-! ### libgit2 status flag constants (git2::Status single bits) -/

def INDEX_NEW : Nat := 1
def INDEX_MODIFIED : Nat := 2
def INDEX_DELETED : Nat := 4
def INDEX_RENAMED : Nat := 8
def INDEX_TYPECHANGE : Nat := 16
def WT_NEW : Nat := 128
def WT_MODIFIED : Nat := 256
def WT_DELETED : Nat := 512
def WT_TYPECHANGE : Nat := 1024
def WT_RENAMED : Nat := 2048
def IGNORED : Nat := 16384
def CONFLICTED : Nat := 32768

/-- The twelve single-bit status values the classification loop compares
against, in source order. -/
def singleStatusBits : List Nat :=
  [INDEX_NEW, INDEX_MODIFIED, INDEX_DELETED, INDEX_RENAMED, INDEX_TYPECHANGE,
   WT_NEW, WT_MODIFIED, WT_DELETED, WT_RENAMED, WT_TYPECHANGE,
   IGNORED, CONFLICTED]

/-! ### Counters accumulated by the status loop (main.rs lines 168-183) -/

structure Counters where
  index_new : Nat
  index_modified : Nat
  index_deleted : Nat
  index_renamed : Nat
  index_typechange : Nat
  wt_new : Nat
  wt_modified : Nat
  wt_deleted : Nat
  wt_renamed : Nat
  wt_typechange : Nat
  ignored : Nat
  conflicted : Nat
deriving Repr, DecidableEq

def zeroCounters : Counters := ⟨0, 0, 0, 0, 0, 0, 0, 0, 0, 0, 0, 0⟩

/-- One iteration of the `statuses.iter().for_each` classification loop
(main.rs lines 265-315): twelve independent exact-equality tests, each
incrementing its counter when the entry's status equals that single bit. -/
def countEntry (c : Counters) (status : Nat) : Counters :=
  let c := if status = INDEX_NEW then { c with index_new := c.index_new + 1 } else c
  let c := if status = INDEX_MODIFIED then { c with index_modified := c.index_modified + 1 } else c
  let c := if status = INDEX_DELETED then { c with index_deleted := c.index_deleted + 1 } else c
  let c := if status = INDEX_RENAMED then { c with index_renamed := c.index_renamed + 1 } else c
  let c := if status = INDEX_TYPECHANGE then { c with index_typechange := c.index_typechange + 1 } else c
  let c := if status = WT_NEW then { c with wt_new := c.wt_new + 1 } else c
  let c := if status = WT_MODIFIED then { c with wt_modified := c.wt_modified + 1 } else c
  let c := if status = WT_DELETED then { c with wt_deleted := c.wt_deleted + 1 } else c
  let c := if status = WT_RENAMED then { c with wt_renamed := c.wt_renamed + 1 } else c
  let c := if status = WT_TYPECHANGE then { c with wt_typechange := c.wt_typechange + 1 } else c
  let c := if status = IGNORED then { c with ignored := c.ignored + 1 } else c
  let c := if status = CONFLICTED then { c with conflicted := c.conflicted + 1 } else c
  c

/-- Total of all twelve classification counters; used to express that an
entry contributes to exactly one counter. -/
def counterSum (c : Counters) : Nat :=
  c.index_new + c.index_modified + c.index_deleted + c.index_renamed +
  c.index_typechange + c.wt_new + c.wt_modified + c.wt_deleted +
  c.wt_renamed + c.wt_typechange + c.ignored + c.conflicted

/-! ### The snapshot value (struct GitStatus, main.rs lines 135-157).
Counters are `u16` in Rust; entries are counted one by one, so they are
modelled as `Nat`.  The `ahead`/`behind` fields are produced from `usize`
results by an `as u16` cast, which the embedding renders as `% 65536`. -/

structure GitStatus where
  branch : String
  tag : String
  remote : String
  index_new : Nat
  index_modified : Nat
  index_deleted : Nat
  index_renamed : Nat
  index_typechange : Nat
  wt_new : Nat
  wt_modified : Nat
  wt_deleted : Nat
  wt_renamed : Nat
  wt_typechange : Nat
  ignored : Nat
  conflicted : Nat
  ahead : Nat
  behind : Nat
deriving Repr, DecidableEq

/-! ### Hex rendering of the detached-HEAD short id.
`write!(&mut id, "{byte:x}")` formats a byte in lowercase hex WITHOUT a
width, so a byte below 16 contributes a single character. -/

def hexDigit (n : Nat) : Char :=
  if n = 0 then '0' else if n = 1 then '1' else if n = 2 then '2'
  else if n = 3 then '3' else if n = 4 then '4' else if n = 5 then '5'
  else if n = 6 then '6' else if n = 7 then '7' else if n = 8 then '8'
  else if n = 9 then '9' else if n = 10 then 'a' else if n = 11 then 'b'
  else if n = 12 then 'c' else if n = 13 then 'd' else if n = 14 then 'e'
  else 'f'

/-- Rust `format!("{b:x}")` for a byte: minimal lowercase hex, no padding. -/
def hexByte (b : Nat) : String :=
  if b < 16 then String.mk [hexDigit b]
  else String.mk [hexDigit (b / 16), hexDigit (b % 16)]

/-- The loop `for byte in &commit.id().as_bytes()[..4] { write!(id, "{byte:x}") }`
(main.rs lines 192-195): concatenate the unpadded hex of the given bytes. -/
def hexConcat (bytes : List Nat) : String :=
  bytes.foldl (fun s b => s ++ hexByte b) ""

/-- Rust `str::trim`: the string with leading and trailing whitespace
removed (structural definition over the character list, so that it
evaluates inside proofs). -/
def strTrim (s : String) : String :=
  String.mk
    (((s.data.dropWhile Char.isWhitespace).reverse.dropWhile
      Char.isWhitespace).reverse)

/-! ### Oracle model of the repository collaborator (git2). -/

/-- Outcome of `repo.head()` when it succeeds: the reference's
`shorthand()` (None when the name is not valid utf-8) and, should it be
peeled, the result of `peel_to_commit()` -- `some bytes` holds the commit
id's bytes (a real oid has 20 of them). -/
structure HeadRef where
  shorthand : Option String
  peelCommit : Option (List Nat)
deriving Repr, DecidableEq

/-- Outcome of `repo.head()` when it fails; the code only inspects whether
`err.code() == git2::ErrorCode::BareRepo`. -/
structure GitError where
  isBareRepo : Bool
deriving Repr, DecidableEq

/-- Oracle record for one opened repository: the outcome of every external
call `GitStatus::init` may make.
* `isEmpty`: `repo.is_empty()`, `none` when that call errors.
* `findBranchOk` / `upstreamOk`: whether `repo.find_branch(..)` /
  `branch.upstream()` return `Ok`.
* `localTarget` / `upstreamTarget`: `branch.get().target()` and
  `upstream.get().target()` (oids, opaque here).
* `graphAheadBehind`: `repo.graph_ahead_behind(local, upstream)`, the two
  `usize` counts on success.
* `upstreamName`: `some name` when `upstream.name()` returns `Ok(Some(name))`,
  `none` for `Ok(None)` or `Err`.
* `tagDescribe`: `some stdout` when the `git describe --tags --abbrev=0`
  subprocess launches, exits successfully and its stdout is valid utf-8.
* `statuses`: `repo.statuses(..)` -- `none` on `Err`, otherwise the status
  flag word of each entry in iteration order. -/
structure Repo where
  headResult : Except GitError HeadRef
  isEmpty : Option Bool
  findBranchOk : Bool
  upstreamOk : Bool
  localTarget : Option Nat
  upstreamTarget : Option Nat
  graphAheadBehind : Option (Nat × Nat)
  upstreamName : Option String
  tagDescribe : Option String
  statuses : Option (List Nat)
deriving Repr

/-- Branch-identity result: branch display string, `remote`, `ahead`,
`behind`. -/
structure IdentityRes where
  branch : String
  remote : String
  ahead : Nat
  behind : Nat
deriving Repr, DecidableEq

/-- The upstream-resolution block (main.rs lines 203-226): on any failure
ahead/behind stay 0 and remote is empty; `as u16` is `% 65536`. -/
def resolveUpstream (repo : Repo) : IdentityRes → IdentityRes := fun idr =>
  if repo.findBranchOk then
    if repo.upstreamOk then
      let ab : Nat × Nat :=
        match repo.localTarget, repo.upstreamTarget with
        | some _, some _ =>
          match repo.graphAheadBehind with
          | some (a, b) => (a % 65536, b % 65536)
          | none => (0, 0)
        | _, _ => (0, 0)
      let nm : String :=
        match repo.upstreamName with
        | some n => n
        | none => ""
      { idr with remote := nm, ahead := ab.1, behind := ab.2 }
    else { idr with remote := "" }
  else { idr with remote := "" }

/-- The `let branch = match repo.head() { .. }` chain (main.rs lines 187-237). -/
def resolveIdentity (repo : Repo) : IdentityRes :=
  let idr : IdentityRes := ⟨"", "", 0, 0⟩
  match repo.headResult with
  | .ok reference =>
    match reference.shorthand with
    | some name =>
      if name = "HEAD" then
        match reference.peelCommit with
        | some bytes => { idr with branch := hexConcat (bytes.take 4) }
        | none => { idr with branch := "HEAD" }
      else
        { resolveUpstream repo idr with branch := name }
    | none => { idr with branch := "HEAD" }
  | .error err =>
    if err.isBareRepo then { idr with branch := "master" }
    else if repo.isEmpty.getD false then { idr with branch := "master" }
    else { idr with branch := "HEAD" }

/-- Tag lookup (main.rs lines 239-250): trimmed stdout of a successful
`git describe --tags --abbrev=0`, empty string on any failure. -/
def gitTag (repo : Repo) : String :=
  match repo.tagDescribe with
  | some out => strTrim out
  | none => ""

/-- `GitStatus::init` (main.rs lines 160-336).  The argument is the outcome
of `Repository::open(repo_path)`: `none` when open fails.  Returns `none`
exactly when open fails or `repo.statuses(..)` fails. -/
def GitStatus.init (repoOpen : Option Repo) : Option GitStatus :=
  match repoOpen with
  | none => none
  | some repo =>
    let idr := resolveIdentity repo
    let tag := gitTag repo
    match repo.statuses with
    | none => none
    | some entries =>
      let c := entries.foldl countEntry zeroCounters
      some ⟨idr.branch, tag, idr.remote,
        c.index_new, c.index_modified, c.index_deleted, c.index_renamed,
        c.index_typechange, c.wt_new, c.wt_modified, c.wt_deleted,
        c.wt_renamed, c.wt_typechange, c.ignored, c.conflicted,
        idr.ahead, idr.behind⟩

/-! ### Rendering (main.rs lines 338-414 and the body of `run`). -/

/-- `get_green` (staged family): `+n`, `+~n`, `+->n`, `+tn`, each pushed
only when its counter is positive, joined by a single space. -/
def GitStatus.get_green (gs : GitStatus) : String :=
  let greens : List String :=
    (if gs.index_new > 0 then ["+" ++ toString gs.index_new] else []) ++
    (if gs.index_modified > 0 then ["+~" ++ toString gs.index_modified] else []) ++
    (if gs.index_renamed > 0 then ["+->" ++ toString gs.index_renamed] else []) ++
    (if gs.index_typechange > 0 then ["+t" ++ toString gs.index_typechange] else [])
  String.intercalate " " greens

/-- `get_yellow` (working-tree family plus divergence): `?n`, `~n`, `->n`,
`tn`, `↑n`, `↓n`. -/
def GitStatus.get_yellow (gs : GitStatus) : String :=
  let yellow : List String :=
    (if gs.wt_new > 0 then ["?" ++ toString gs.wt_new] else []) ++
    (if gs.wt_modified > 0 then ["~" ++ toString gs.wt_modified] else []) ++
    (if gs.wt_renamed > 0 then ["->" ++ toString gs.wt_renamed] else []) ++
    (if gs.wt_typechange > 0 then ["t" ++ toString gs.wt_typechange] else []) ++
    (if gs.ahead > 0 then ["↑" ++ toString gs.ahead] else []) ++
    (if gs.behind > 0 then ["↓" ++ toString gs.behind] else [])
  String.intercalate " " yellow

/-- `get_gray`: `!n` when ignored is positive, else empty. -/
def GitStatus.get_gray (gs : GitStatus) : String :=
  if gs.ignored > 0 then "!" ++ toString gs.ignored else ""

/-- `get_red` (deletions and conflicts): `+-n`, `-n`, `cn`. -/
def GitStatus.get_red (gs : GitStatus) : String :=
  let red : List String :=
    (if gs.index_deleted > 0 then ["+-" ++ toString gs.index_deleted] else []) ++
    (if gs.wt_deleted > 0 then ["-" ++ toString gs.wt_deleted] else []) ++
    (if gs.conflicted > 0 then ["c" ++ toString gs.conflicted] else [])
  String.intercalate " " red

/-- The `let remote = if !git_status.remote.is_empty() { "".to_string() }
else { "".to_string() }` statement (main.rs lines 90-94): both branches
yield the empty string. -/
def remoteSegment (gs : GitStatus) : String :=
  if gs.remote ≠ "" then "" else ""

/-- The `let branch_tag = ..` statement (main.rs lines 96-100): the tag
when non-empty, else the branch. -/
def branchOrTag (gs : GitStatus) : String :=
  if gs.tag = "" then gs.branch else gs.tag

/-- The rendering tail of `GitPrompt::run` (main.rs lines 88-131): push
each non-empty category in fixed order, join with single spaces, trim,
prefix one space. -/
def renderStatus (gs : GitStatus) : String :=
  let remote := remoteSegment gs
  let branch_tag := branchOrTag gs
  let v : List String :=
    (if remote ≠ "" then [remote] else []) ++
    (if branch_tag ≠ "" then [branch_tag] else []) ++
    (if gs.get_green ≠ "" then [gs.get_green] else []) ++
    (if gs.get_yellow ≠ "" then [gs.get_yellow] else []) ++
    (if gs.get_gray ≠ "" then [gs.get_gray] else []) ++
    (if gs.get_red ≠ "" then [gs.get_red] else [])
  " " ++ strTrim (String.intercalate " " v)

/-- The six category slots in the spec's fixed order (remote-indicator,
branch-or-tag, staged/green, unstaged/yellow, ignored/gray,
conflict-deletion/red); per the spec the remote-indicator slot always
renders as empty. -/
def specCategories (gs : GitStatus) : List String :=
  ["", branchOrTag gs, gs.get_green, gs.get_yellow, gs.get_gray, gs.get_red]

/-- Renderer stated from the spec's words (§4.2), for refinement against
`renderStatus`: empty categories contribute nothing, the rest are joined by
a single space, the joined body is trimmed, then one leading space is
prefixed. -/
def renderSpec (gs : GitStatus) : String :=
  " " ++ strTrim (String.intercalate " "
    ((specCategories gs).filter (fun s => decide (s ≠ ""))))

/-! ### The whole invocation `GitPrompt::run` (main.rs lines 46-132). -/

/-- Model of `nu_protocol::LabeledError` (only its existence matters: the
theorems show no value of it is ever produced). -/
structure LabeledError where
  msg : String
deriving Repr, DecidableEq

/-- Oracle record for one invocation's environment:
* `currentDir`: `engine.get_current_dir()`, `none` on `Err`.
* `dirExists`: `path.is_dir()` for the current directory.
* `gitDirIsDir`: whether `.git` directly under it is a directory.
* `gitDirFileSizes`: the `metadata.len()` of every walk entry that yields
  an `Ok` entry with `Ok` metadata reporting a regular file.
* `repoOpen`: the outcome of `Repository::open`, fed to `GitStatus.init`. -/
structure Env where
  currentDir : Option String
  dirExists : Bool
  gitDirIsDir : Bool
  gitDirFileSizes : List Nat
  repoOpen : Option Repo
deriving Repr

/-- The `size` accumulation of the walk (main.rs lines 68-75). -/
def gitDirSize (env : Env) : Nat :=
  env.gitDirFileSizes.foldl (fun a b => a + b) 0

/-- `GitPrompt::run` (main.rs lines 46-132): every guard failure returns
`Ok("")`; a successful collection is rendered. -/
def GitPrompt.run (env : Env) : Except LabeledError String :=
  match env.currentDir with
  | none => .ok ""
  | some _ =>
    if ¬ env.dirExists then .ok ""
    else if env.gitDirIsDir ∧ gitDirSize env > 1000000000 then .ok ""
    else
      match GitStatus.init env.repoOpen with
      | none => .ok ""
      | some gs => .ok (renderStatus gs)

/-! ### Theorems -/

/-- A snapshot with its `remote` field replaced (all other fields kept):
used to state that rendering ignores `remote`. -/
def setRemote (gs : GitStatus) (r : String) : GitStatus :=
  ⟨gs.branch, gs.tag, r, gs.index_new, gs.index_modified, gs.index_deleted,
   gs.index_renamed, gs.index_typechange, gs.wt_new, gs.wt_modified,
   gs.wt_deleted, gs.wt_renamed, gs.wt_typechange, gs.ignored,
   gs.conflicted, gs.ahead, gs.behind⟩

/-- C2: classification is by exact equality against the twelve canonical
single-bit status values: a status equal to one of them bumps the counter
total by exactly one, any other status (in particular any composite of
several distinct single bits, which the third conjunct shows is never one
of the twelve) leaves every counter untouched. -/
theorem claim_C2 (c : Counters) (s : Nat) :
    (s ∈ singleStatusBits → counterSum (countEntry c s) = counterSum c + 1) ∧
    (s ∉ singleStatusBits → countEntry c s = c) ∧
    (∀ a ∈ singleStatusBits, ∀ b ∈ singleStatusBits, a ≠ b →
      a ||| b ∉ singleStatusBits) := by
  refine ⟨?_, ?_, by decide⟩
  · intro hs
    fin_cases hs <;>
      simp [countEntry, counterSum, INDEX_NEW, INDEX_MODIFIED, INDEX_DELETED,
        INDEX_RENAMED, INDEX_TYPECHANGE, WT_NEW, WT_MODIFIED, WT_DELETED,
        WT_TYPECHANGE, WT_RENAMED, IGNORED, CONFLICTED] <;> ring
  · intro hs
    simp only [singleStatusBits, INDEX_NEW, INDEX_MODIFIED, INDEX_DELETED,
      INDEX_RENAMED, INDEX_TYPECHANGE, WT_NEW, WT_MODIFIED, WT_DELETED,
      WT_TYPECHANGE, WT_RENAMED, IGNORED, CONFLICTED, List.mem_cons,
      List.not_mem_nil, or_false, not_or] at hs
    obtain ⟨h1, h2, h3, h4, h5, h6, h7, h8, h9, h10, h11, h12⟩ := hs
    simp [countEntry, INDEX_NEW, INDEX_MODIFIED, INDEX_DELETED,
      INDEX_RENAMED, INDEX_TYPECHANGE, WT_NEW, WT_MODIFIED, WT_DELETED,
      WT_TYPECHANGE, WT_RENAMED, IGNORED, CONFLICTED,
      h1, h2, h3, h4, h5, h6, h7, h8, h9, h10, h11, h12]

/-- C2 witness: the status word 1 (index-new) bumps the total from 0 to 1,
and the composite word 257 = index-new ||| wt-modified leaves the zero
counters unchanged. -/
theorem claim_C2_witness :
    counterSum (countEntry zeroCounters 1) = counterSum zeroCounters + 1 ∧
    countEntry zeroCounters 257 = zeroCounters :=
  ⟨(claim_C2 zeroCounters 1).1 (by decide),
   (claim_C2 zeroCounters 257).2.1 (by decide)⟩

/-- C7: the computed `remote` value never influences the rendered output:
two snapshots differing only in `remote` render identically (the
remote-indicator slot is empty either way). -/
theorem claim_C7 (gs : GitStatus) (r1 r2 : String) :
    renderStatus (setRemote gs r1) = renderStatus (setRemote gs r2) := by
  simp [renderStatus, setRemote, remoteSegment, branchOrTag,
    GitStatus.get_green, GitStatus.get_yellow, GitStatus.get_gray,
    GitStatus.get_red]

/-- C8: the branch-or-tag segment is the tag whenever the tag is
non-empty, and the branch exactly when the tag is empty. -/
theorem claim_C8 (gs : GitStatus) :
    (gs.tag ≠ "" → branchOrTag gs = gs.tag) ∧
    (gs.tag = "" → branchOrTag gs = gs.branch) := by
  unfold branchOrTag
  constructor <;> intro h <;> simp [h]

/-- A snapshot carrying both a tag and a branch, for the C8 witness. -/
def gsTagged : GitStatus :=
  ⟨"main", "v1.2.0", "", 0, 0, 0, 0, 0, 0, 0, 0, 0, 0, 0, 0, 0, 0⟩

/-- The same snapshot without the tag, for the C8 witness. -/
def gsUntagged : GitStatus :=
  ⟨"main", "", "", 0, 0, 0, 0, 0, 0, 0, 0, 0, 0, 0, 0, 0, 0⟩

/-- C8 witness: with tag `v1.2.0` present the segment is the tag; with the
tag removed it is the branch `main`. -/
theorem claim_C8_witness :
    branchOrTag gsTagged = gsTagged.tag ∧
    branchOrTag gsUntagged = gsUntagged.branch :=
  ⟨(claim_C8 gsTagged).1 (by decide),
   (claim_C8 gsUntagged).2 (by decide)⟩

/-- C3: the renderer emits the non-empty categories in the fixed order
(remote-indicator, branch-or-tag, staged/green, unstaged/yellow,
ignored/gray, conflict-deletion/red) joined by single spaces with empty
categories contributing nothing, the joined body trimmed and prefixed with
exactly one leading space (`renderSpec` spells this out in the spec's
words); an all-empty snapshot renders as exactly one space character. -/
theorem claim_C3 (gs : GitStatus) :
    renderStatus gs = renderSpec gs ∧
    (branchOrTag gs = "" ∧ gs.get_green = "" ∧ gs.get_yellow = "" ∧
     gs.get_gray = "" ∧ gs.get_red = "" → renderStatus gs = " ") := by
  have hrem : remoteSegment gs = "" := by
    unfold remoteSegment
    split <;> rfl
  constructor
  · unfold renderStatus renderSpec specCategories
    rw [hrem]
    by_cases h2 : branchOrTag gs = "" <;>
    by_cases h3 : gs.get_green = "" <;>
    by_cases h4 : gs.get_yellow = "" <;>
    by_cases h5 : gs.get_gray = "" <;>
    by_cases h6 : gs.get_red = "" <;>
    simp [h2, h3, h4, h5, h6, List.filter]
  · rintro ⟨h2, h3, h4, h5, h6⟩
    unfold renderStatus
    rw [hrem]
    simp [h2, h3, h4, h5, h6]
    decide

/-- The all-empty snapshot for the C3 witness. -/
def gsBlank : GitStatus :=
  ⟨"", "", "", 0, 0, 0, 0, 0, 0, 0, 0, 0, 0, 0, 0, 0, 0⟩

/-- C3 witness: on the all-empty snapshot the renderer agrees with the
spec's formulation and yields exactly one space character. -/
theorem claim_C3_witness :
    renderStatus gsBlank = renderSpec gsBlank ∧ renderStatus gsBlank = " " :=
  ⟨(claim_C3 gsBlank).1, (claim_C3 gsBlank).2 (by decide)⟩

/-- C4: collection returns `none` (Absent, not an error) exactly when the
repository cannot be opened or the status enumeration fails, and in that
case the whole invocation returns `Ok("")` -- no partial snapshot is ever
rendered. -/
theorem claim_C4 (env : Env) :
    (GitStatus.init env.repoOpen = none ↔
      env.repoOpen = none ∨ ∃ r, env.repoOpen = some r ∧ r.statuses = none) ∧
    (GitStatus.init env.repoOpen = none → GitPrompt.run env = .ok "") := by
  constructor
  · cases hr : env.repoOpen with
    | none => simp [GitStatus.init]
    | some r =>
      cases hs : r.statuses with
      | none => simp [GitStatus.init, hs]
      | some es => simp [GitStatus.init, hs]
  · intro h
    unfold GitPrompt.run
    rw [h]
    cases env.currentDir with
    | none => rfl
    | some d =>
      by_cases hd : env.dirExists <;>
      by_cases hg : env.gitDirIsDir ∧ gitDirSize env > 1000000000 <;>
      simp [hd, hg]

/-- An environment whose repository fails to open, for the C4 witness. -/
def envNoRepo : Env := ⟨some "/tmp", true, false, [], none⟩

/-- C4 witness: with `Repository::open` failing, collection is Absent and
the invocation result is `Ok("")`. -/
theorem claim_C4_witness : GitPrompt.run envNoRepo = .ok "" :=
  (claim_C4 envNoRepo).2 (by decide)

/-- C6: when `.git` is a directory and the summed size of the regular
files found by the recursive walk exceeds 1,000,000,000 bytes, the
invocation short-circuits to `Ok("")`, whatever the repository's actual
status (the environment, in particular `repoOpen`, is arbitrary). -/
theorem claim_C6 (env : Env) (h1 : env.gitDirIsDir = true)
    (h2 : gitDirSize env > 1000000000) :
    GitPrompt.run env = .ok "" := by
  unfold GitPrompt.run
  cases env.currentDir with
  | none => rfl
  | some d =>
    by_cases hd : env.dirExists
    · simp [hd, h1, h2]
    · simp [hd]

/-- A repository that would render a non-empty prompt, behind an oversized
`.git` directory, for the C6 witness. -/
def repoBusy : Repo :=
  ⟨.ok ⟨some "main", none⟩, some false, false, false, none, none, none,
   none, none, some [1, 256]⟩

/-- Environment with an oversized `.git` walk total, for the C6 witness. -/
def envBigGit : Env :=
  ⟨some "/tmp", true, true, [999999999, 2], some repoBusy⟩

/-- C6 witness: a 1,000,000,001-byte `.git` walk total short-circuits to
`Ok("")` even though the repository would have produced a snapshot. -/
theorem claim_C6_witness : GitPrompt.run envBigGit = .ok "" :=
  claim_C6 envBigGit rfl (by decide)

/-- C10: `run` never produces the `Err(LabeledError)` branch of its result
type: every outcome is `Ok` of some string; and the hex formatting behind
the sole `unwrap` is a total function producing at least one character, so
it cannot fail. -/
theorem claim_C10 (env : Env) :
    (∃ s, GitPrompt.run env = .ok s) ∧ ∀ b : Nat, 1 ≤ (hexByte b).length := by
  constructor
  · unfold GitPrompt.run
    cases env.currentDir with
    | none => exact ⟨"", rfl⟩
    | some d =>
      by_cases hd : env.dirExists
      · by_cases hg : env.gitDirIsDir ∧ gitDirSize env > 1000000000
        · exact ⟨"", by simp [hd, hg]⟩
        · cases h : GitStatus.init env.repoOpen with
          | none => exact ⟨"", by simp [hd, hg, h]⟩
          | some gs => exact ⟨renderStatus gs, by simp [hd, hg, h]⟩
      · exact ⟨"", by simp [hd]⟩
  · intro b
    unfold hexByte
    split <;> simp [String.length]

/-- C5: when HEAD resolution fails with a bare-repository error, or fails
while `is_empty()` reports the repository has zero commits, the branch is
the literal `"master"`; any other HEAD resolution failure yields the
literal `"HEAD"`; in every failure case change enumeration is still
attempted (the collection result is `some`/`none` exactly as the status
enumeration succeeds or fails, expressed by mapping over `statuses`). -/
theorem claim_C5 (r : Repo) (e : GitError) (hh : r.headResult = .error e) :
    ((e.isBareRepo = true ∨ r.isEmpty = some true) →
      (GitStatus.init (some r)).map GitStatus.branch =
        r.statuses.map (fun _ => "master")) ∧
    (e.isBareRepo = false → r.isEmpty ≠ some true →
      (GitStatus.init (some r)).map GitStatus.branch =
        r.statuses.map (fun _ => "HEAD")) := by
  constructor
  · intro hcase
    have hb : (resolveIdentity r).branch = "master" := by
      unfold resolveIdentity
      rw [hh]
      rcases hcase with hbare | hempty
      · simp [hbare]
      · rcases hb : e.isBareRepo with _ | _ <;> simp [hb, hempty]
    unfold GitStatus.init
    cases hs : r.statuses with
    | none => simp [hs]
    | some es => simp [hs, hb]
  · intro hbare hempty
    have hb : (resolveIdentity r).branch = "HEAD" := by
      unfold resolveIdentity
      rw [hh]
      cases he : r.isEmpty with
      | none => simp [hbare, he]
      | some b =>
        cases b with
        | false => simp [hbare, he]
        | true => exact absurd he hempty
    unfold GitStatus.init
    cases hs : r.statuses with
    | none => simp [hs]
    | some es => simp [hs, hb]

/-- A bare repository whose HEAD fails with `ErrorCode::BareRepo` and
whose status enumeration succeeds, for the C5 witness. -/
def repoBare : Repo :=
  ⟨.error ⟨true⟩, some false, false, false, none, none, none, none, none,
   some [128]⟩

/-- C5 witness: the bare repository resolves to branch `"master"` and the
change enumeration is still carried out (collection succeeds). -/
theorem claim_C5_witness :
    (GitStatus.init (some repoBare)).map GitStatus.branch =
      repoBare.statuses.map (fun _ => "master") :=
  (claim_C5 repoBare ⟨true⟩ rfl).1 (Or.inl rfl)

/-- C9: on the named-branch path with a configured upstream, the stored
`ahead`/`behind` are the `usize` divergence counts reduced modulo 2^16
(the `as u16` cast), so counts of 65536 or more silently wrap. -/
theorem claim_C9 (r : Repo) (name : String) (pc : Option (List Nat))
    (a b : Nat) (es : List Nat)
    (hh : r.headResult = .ok ⟨some name, pc⟩) (hname : name ≠ "HEAD")
    (hfb : r.findBranchOk = true) (hup : r.upstreamOk = true)
    (hlt : r.localTarget.isSome = true) (hut : r.upstreamTarget.isSome = true)
    (hab : r.graphAheadBehind = some (a, b)) (hs : r.statuses = some es) :
    ∃ gs, GitStatus.init (some r) = some gs ∧
      gs.ahead = a % 65536 ∧ gs.behind = b % 65536 := by
  obtain ⟨x, hx⟩ := Option.isSome_iff_exists.mp hlt
  obtain ⟨y, hy⟩ := Option.isSome_iff_exists.mp hut
  have hid : (resolveIdentity r).ahead = a % 65536 ∧
      (resolveIdentity r).behind = b % 65536 := by
    unfold resolveIdentity resolveUpstream
    rw [hh]
    simp [hname, hfb, hup, hx, hy, hab]
  simp only [GitStatus.init, hs]
  exact ⟨_, rfl, hid.1, hid.2⟩

/-- A repository on branch `dev` whose upstream divergence is
(65536, 70000), for the C9 witness. -/
def repoDiverged : Repo :=
  ⟨.ok ⟨some "dev", none⟩, some false, true, true, some 11, some 22,
   some (65536, 70000), some "origin/dev", none, some []⟩

/-- C9 witness: divergence counts (65536, 70000) are stored as their
values modulo 2^16 -- an ahead count of 65536 wraps silently. -/
theorem claim_C9_witness :
    ∃ gs, GitStatus.init (some repoDiverged) = some gs ∧
      gs.ahead = 65536 % 65536 ∧ gs.behind = 70000 % 65536 :=
  claim_C9 repoDiverged "dev" none 65536 70000 [] rfl (by decide) rfl rfl
    rfl rfl rfl rfl

/-! ### Length facts about the unpadded hex encoding, for C1. -/

theorem hexByte_length_ge (b : Nat) : 1 ≤ (hexByte b).length := by
  unfold hexByte
  split <;> simp [String.length]

theorem hexByte_length_le (b : Nat) : (hexByte b).length ≤ 2 := by
  unfold hexByte
  split <;> simp [String.length]

theorem hexByte_length_two (b : Nat) (h : 16 ≤ b) : (hexByte b).length = 2 := by
  unfold hexByte
  rw [if_neg (by omega)]
  simp [String.length]

theorem hexConcat_go_length (s : String) (l : List Nat) :
    (l.foldl (fun acc b => acc ++ hexByte b) s).length =
      s.length + (l.map fun b => (hexByte b).length).sum := by
  induction l generalizing s with
  | nil => simp
  | cons x xs ih =>
    simp only [List.foldl_cons, List.map_cons, List.sum_cons, ih,
      String.length_append]
    omega

theorem hexConcat_length_ge (l : List Nat) :
    l.length ≤ (hexConcat l).length := by
  rw [hexConcat, hexConcat_go_length]
  induction l with
  | nil => simp
  | cons x xs ih =>
    simp only [List.map_cons, List.sum_cons, List.length_cons]
    have := hexByte_length_ge x
    omega

theorem hexConcat_length_le (l : List Nat) :
    (hexConcat l).length ≤ 2 * l.length := by
  rw [hexConcat, hexConcat_go_length]
  induction l with
  | nil => simp
  | cons x xs ih =>
    simp only [List.map_cons, List.sum_cons, List.length_cons]
    have := hexByte_length_le x
    omega

theorem hexConcat_length_eq (l : List Nat) (h : ∀ x ∈ l, 16 ≤ x) :
    (hexConcat l).length = 2 * l.length := by
  rw [hexConcat, hexConcat_go_length]
  induction l with
  | nil => simp
  | cons x xs ih =>
    simp only [List.map_cons, List.sum_cons, List.length_cons]
    have h1 := hexByte_length_two x (h x (by simp))
    have h2 := ih (fun y hy => h y (by simp [hy]))
    simp only [Nat.zero_add] at h2
    omega

/-- A repository detached at a commit whose id bytes are all zero, for the
C1 counterexample. -/
def repoDetachedZero : Repo :=
  ⟨.ok ⟨some "HEAD", some (List.replicate 20 0)⟩, some false, false, false,
   none, none, none, none, none, some []⟩

/-- C1 counterexample: detached at a commit whose first four id bytes are
all zero, the code's branch value is `"0000"` -- four characters, not the
eight the claim asserts (each byte is written with `{byte:x}`, which does
not zero-pad). -/
theorem claim_C1_counterexample :
    (GitStatus.init (some repoDetachedZero)).map GitStatus.branch =
      some "0000" ∧ ("0000" : String).length ≠ 8 := by
  constructor
  · decide
  · decide

/-- C1 (amended): in the detached state the branch is the concatenation of
the first 4 commit-id bytes each written in minimal lowercase hex WITHOUT
zero-padding -- between 4 and 8 characters, and exactly 8 only when every
one of those bytes is at least 16; if peeling to a commit fails the branch
is the literal `"HEAD"`. -/
theorem claim_C1_amended (r : Repo) (pc : Option (List Nat)) (es : List Nat)
    (hh : r.headResult = .ok ⟨some "HEAD", pc⟩)
    (hs : r.statuses = some es)
    (hlen : ∀ bytes ∈ pc, 4 ≤ bytes.length) :
    ∃ gs, GitStatus.init (some r) = some gs ∧
      (pc = none → gs.branch = "HEAD") ∧
      (∀ bytes, pc = some bytes →
        gs.branch = hexConcat (bytes.take 4) ∧
        4 ≤ gs.branch.length ∧ gs.branch.length ≤ 8 ∧
        ((∀ x ∈ bytes.take 4, 16 ≤ x) → gs.branch.length = 8)) := by
  have hbNone : pc = none → (resolveIdentity r).branch = "HEAD" := by
    intro hpc
    subst hpc
    simp [resolveIdentity, hh]
  have hbSome : ∀ bytes, pc = some bytes →
      (resolveIdentity r).branch = hexConcat (bytes.take 4) := by
    intro bytes hpc
    subst hpc
    simp [resolveIdentity, hh]
  simp only [GitStatus.init, hs]
  refine ⟨_, rfl, ?_, ?_⟩
  · intro hpc
    simpa using hbNone hpc
  · intro bytes hpc
    have hbb := hbSome bytes hpc
    have hge := hexConcat_length_ge (bytes.take 4)
    have hle := hexConcat_length_le (bytes.take 4)
    have h4 : (bytes.take 4).length = 4 := by
      rw [List.length_take]
      have := hlen bytes hpc
      omega
    refine ⟨?_, ?_, ?_, ?_⟩
    · simpa using hbb
    · simp only [hbb]
      omega
    · simp only [hbb]
      omega
    · intro hall
      simp only [hbb]
      rw [hexConcat_length_eq (bytes.take 4) hall, h4]

/-- A repository detached at a commit with first id bytes
`ab cd ef 12`, for the C1 witness. -/
def repoDetachedFull : Repo :=
  ⟨.ok ⟨some "HEAD", some ([171, 205, 239, 18] ++ List.replicate 16 0)⟩,
   some false, false, false, none, none, none, none, none, some []⟩

/-- C1 witness: with first id bytes `ab cd ef 12` (all at least 16) the
amended statement applies and gives an 8-character hex branch. -/
theorem claim_C1_witness :
    ∃ gs, GitStatus.init (some repoDetachedFull) = some gs ∧
      (some ([171, 205, 239, 18] ++ List.replicate 16 0) = none →
        gs.branch = "HEAD") ∧
      (∀ bytes, some ([171, 205, 239, 18] ++ List.replicate 16 0) =
          some bytes →
        gs.branch = hexConcat (bytes.take 4) ∧
        4 ≤ gs.branch.length ∧ gs.branch.length ≤ 8 ∧
        ((∀ x ∈ bytes.take 4, 16 ≤ x) → gs.branch.length = 8)) :=
  claim_C1_amended repoDetachedFull
    (some ([171, 205, 239, 18] ++ List.replicate 16 0)) [] rfl rfl
    (by decide)

end GitPromptModel
